import Mathlib

/-!
Shallow embedding of `src/server.js` (mahjong-server): a small Express backend
with a process-wide cache (`LocalCache`), a two-tier credential scheme
(`authMiddleware`, `requireSuperAdmin`), a sub-admin write cooldown, and CRUD
handlers over a Supabase store.  Store calls are modelled as oracle inputs
(the `{data, error}` shapes the Supabase client returns); handlers become pure
functions from (request, cache state, oracle results) to an instrumented
outcome recording the response, the store calls issued and the state updates.
-/

namespace MahjongServer

/-- A database row / record: an open map of fields, opaque to the server. -/
def Rec : Type := List (String × String)

instance : DecidableEq Rec := by
  unfold Rec; infer_instance

/-- The aliases settings value: one opaque mapping object. -/
def Aliases : Type := List (String × String)

instance : DecidableEq Aliases := by
  unfold Aliases; infer_instance

/-- A Supabase error object, as inspected by the handlers (`code`, `message`). -/
structure StoreErr where
  code : String
  message : String
deriving DecidableEq, Repr

/-- Roles assigned by `authMiddleware` (`req.userRole`): `'admin'` (super-admin)
or `'sub_admin'`.  An unauthenticated request gets no role (401). -/
inductive Role where
  | admin
  | subAdmin
deriving DecidableEq, Repr

/-- JS truthiness of `LocalCache.subAdminPwd` (a string or `null`):
`null` and the empty string are falsy, any other string is truthy. -/
def truthyOptStr : Option String → Bool
  | none => false
  | some s => s ≠ ""

/-- `authMiddleware` (server.js:55-69): the presented `x-admin-token` header
(`none` when absent) against the static `ADMIN_PASSWORD` and the cached
`LocalCache.subAdminPwd`.  Returns the resolved role, or `none` for the 401
rejection.

```js
if (token === ADMIN_PASSWORD) { req.userRole = 'admin'; return next(); }
if (LocalCache.subAdminPwd && token === LocalCache.subAdminPwd) {
    req.userRole = 'sub_admin'; return next(); }
res.status(401)...
``` -/
def authMiddleware (adminPwd : String) (subAdminPwd : Option String)
    (token : Option String) : Option Role :=
  if token = some adminPwd then
    some Role.admin
  else if truthyOptStr subAdminPwd ∧ token = subAdminPwd then
    some Role.subAdmin
  else
    none

/-- `requireSuperAdmin` (server.js:71-77): passes only the `'admin'` role. -/
def requireSuperAdmin (role : Role) : Bool :=
  role = Role.admin

/-- Outcome of the `authMiddleware, requireSuperAdmin` chain guarding the
super-admin-only routes (alias writes, sub-admin secret writes, record
update/delete). -/
inductive GateResult where
  | pass (r : Role)
  | unauthorized401
  | forbidden403
deriving DecidableEq, Repr

/-- The middleware chain on a super-admin-only route: `authMiddleware` first
(401 on failure), then `requireSuperAdmin` (403 on a non-admin role). -/
def superAdminGate (adminPwd : String) (subAdminPwd : Option String)
    (token : Option String) : GateResult :=
  match authMiddleware adminPwd subAdminPwd token with
  | none => GateResult.unauthorized401
  | some r => if requireSuperAdmin r then GateResult.pass r else GateResult.forbidden403

/-- The `LocalCache` object (server.js:23-50): records, aliases, the cached
sub-admin secret, and the shared last-sub-admin-write timestamp (ms). -/
structure Cache where
  records : List Rec
  aliases : Aliases
  subAdminPwd : Option String
  lastSubActionTime : Int
deriving DecidableEq

/-- The three store reads issued by `LocalCache.sync`, as their `data` fields
arrive from the Supabase client: `recordsRes.data` is `null` on a failed
records read, the two `.single()` settings reads have `data = null` when the
row is absent or the read failed (only `data.value` is consumed, server.js:45-46). -/
structure SyncReads where
  recordsData : Option (List Rec)
  aliasesData : Option Aliases
  subPwdData : Option String
deriving DecidableEq

/-- The snapshot assignments of `LocalCache.sync` (server.js:44-46):
`this.records = recordsRes.data || []`, `this.aliases = aliasesRes.data ?
aliasesRes.data.value : {}`, `this.subAdminPwd = subPwdRes.data ?
subPwdRes.data.value : null`. -/
def syncApply (reads : SyncReads) (c : Cache) : Cache :=
  { c with
    records := reads.recordsData.getD []
    aliases := reads.aliasesData.getD []
    subAdminPwd := reads.subPwdData }

/-- `LocalCache.sync(forceRefresh)` (server.js:31-49), instrumented with the
number of store reads issued.  The guard `if (this.records.length > 0 &&
!forceRefresh) return;` skips everything; otherwise all three reads are
issued (`Promise.all`) and the snapshot fields are assigned. -/
def sync (forceRefresh : Bool) (reads : SyncReads) (c : Cache) : Cache × Nat :=
  if c.records.length > 0 ∧ forceRefresh = false then
    (c, 0)
  else
    (syncApply reads c, 3)

/-- `GET /api/records` (server.js:102-107): `await LocalCache.sync(false)` then
serve `LocalCache.records`.  Returns (response body, cache afterwards, store
reads issued). -/
def getRecords (reads : SyncReads) (c : Cache) : List Rec × Cache × Nat :=
  let s := sync false reads c
  (s.1.records, s.1, s.2)

/-- The body of `LocalCache.sync` past the skip guard as a sequence of
event-loop steps: one `await Promise.all` (the only suspension point), then
three synchronous field assignments with no `await` between them. -/
inductive SyncStep where
  | awaitReads
  | assignRecords
  | assignAliases
  | assignSubPwd
deriving DecidableEq, Repr

/-- Effect of one step on the shared cache.  The `await` itself does not
mutate the cache; each assignment updates one field (server.js:44-46). -/
def stepEffect (reads : SyncReads) : SyncStep → Cache → Cache
  | SyncStep.awaitReads, c => c
  | SyncStep.assignRecords, c => { c with records := reads.recordsData.getD [] }
  | SyncStep.assignAliases, c => { c with aliases := reads.aliasesData.getD [] }
  | SyncStep.assignSubPwd, c => { c with subAdminPwd := reads.subPwdData }

/-- The step sequence of the forced-sync body (server.js:36-46). -/
def syncBody : List SyncStep :=
  [SyncStep.awaitReads, SyncStep.assignRecords, SyncStep.assignAliases,
   SyncStep.assignSubPwd]

/-- Node's event loop can transfer control to another request only while a
step suspends: of the body's steps, only the `await Promise.all` does;
the three assignments run synchronously to completion. -/
def isYield : SyncStep → Bool
  | SyncStep.awaitReads => true
  | _ => false

/-- Cache states at which a concurrent request can run during the given step
sequence: at every suspension (yield) point, and after the body completes. -/
def yieldStates (reads : SyncReads) : List SyncStep → Cache → List Cache
  | [], c => [c]
  | s :: rest, c =>
      let c2 := stepEffect reads s c
      if isYield s then c2 :: yieldStates reads rest c2
      else yieldStates reads rest c2

/-- All cache states a concurrent request can observe around a forced resync:
the state at entry, plus the yield states of the body. -/
def observableStates (reads : SyncReads) (c : Cache) : List Cache :=
  c :: yieldStates reads syncBody c

/-- `COOLDOWN = 10 * 60 * 1000` ms (server.js:114). -/
def COOLDOWN : Int := 10 * 60 * 1000

/-- `Math.ceil((COOLDOWN - timeDiff) / 60000)` (server.js:118), evaluated on
the throttled path where `COOLDOWN - timeDiff > 0`: the ceiling of a positive
integer divided by 60000, computed as `(d + 60000 - 1) / 60000` on `Nat`. -/
def remainingMin (timeDiff : Int) : Nat :=
  ((COOLDOWN - timeDiff).toNat + 59999) / 60000

/-- Result of `supabase.from('records').insert(req.body)`: `error` is `null`
on success. -/
inductive InsertResult where
  | ok
  | err (e : StoreErr)
deriving DecidableEq, Repr

/-- Responses of `POST /api/records`. -/
inductive WriteResp where
  | throttled429 (remainingMinutes : Nat)
  | conflict409
  | serverError500 (msg : String)
  | success
deriving DecidableEq, Repr

/-- Instrumented outcome of `POST /api/records`: the response, the value of
`LocalCache.lastSubActionTime` afterwards, whether the store insert was
attempted, and whether `LocalCache.sync(true)` was invoked. -/
structure WriteOutcome where
  resp : WriteResp
  newLastSubActionTime : Int
  insertAttempted : Bool
  syncForced : Bool
deriving DecidableEq, Repr

/-- The `POST /api/records` handler after `authMiddleware` (server.js:110-140).
`now` is the `Date.now()` of the cooldown check (line 113) and `now2` the
`Date.now()` recorded after a successful insert (line 134); `lastSub` is
`LocalCache.lastSubActionTime` on entry; `ins` the store insert result. -/
def postRecords (role : Role) (now now2 lastSub : Int) (ins : InsertResult) :
    WriteOutcome :=
  if role = Role.subAdmin ∧ now - lastSub < COOLDOWN then
    { resp := WriteResp.throttled429 (remainingMin (now - lastSub))
      newLastSubActionTime := lastSub
      insertAttempted := false
      syncForced := false }
  else
    match ins with
    | InsertResult.err e =>
        if e.code = "23505" then
          { resp := WriteResp.conflict409
            newLastSubActionTime := lastSub
            insertAttempted := true
            syncForced := false }
        else
          { resp := WriteResp.serverError500 e.message
            newLastSubActionTime := lastSub
            insertAttempted := true
            syncForced := false }
    | InsertResult.ok =>
        { resp := WriteResp.success
          newLastSubActionTime := if role = Role.subAdmin then now2 else lastSub
          insertAttempted := true
          syncForced := true }

/-- Responses of `DELETE /api/records/:id`.  A `notFound404` constructor is
present in the response type so that "never returns 404" is expressible; the
handler has no code path producing it. -/
inductive DelResp where
  | success
  | notFound404
  | serverError500 (msg : String)
deriving DecidableEq, Repr

/-- Instrumented outcome of `DELETE /api/records/:id`. -/
structure DelOutcome where
  resp : DelResp
  syncForced : Bool
deriving DecidableEq, Repr

/-- The `DELETE /api/records/:id` handler body (server.js:164-172).
`delError` is the `error` of `supabase.from('records').delete().eq('id', id)`;
`matchedRows` is how many rows the delete matched — the handler never reads
it (the call requests no returned data), so it is a phantom input here. -/
def deleteRecord (id : String) (delError : Option StoreErr)
    (matchedRows : Nat) : DelOutcome :=
  match delError with
  | some e => { resp := DelResp.serverError500 e.message, syncForced := false }
  | none => { resp := DelResp.success, syncForced := true }

/-- The `{ data, error }` pair returned by
`supabase.from('records').update(...).eq('id', ...).select()`: `data` is the
list of updated rows, `null` when the call errored. -/
structure UpdRes where
  data : Option (List Rec)
  error : Option StoreErr
deriving DecidableEq

/-- The key value passed to `.eq('id', ...)` in the update handler: the route
parameter as the string it arrives as, or the `parseInt` retry value. -/
inductive RecId where
  | str (s : String)
  | num (n : Nat)
deriving DecidableEq, Repr

/-- `delete updates.id` (server.js:179): remove the `id` field from the
update payload before applying. -/
def stripId (body : List (String × String)) : List (String × String) :=
  body.filter (fun kv => kv.1 ≠ "id")

/-- `/^\d+$/.test(id)` (server.js:184): at least one character and every
character a decimal digit. -/
def isAllDigits (id : String) : Bool :=
  !id.data.isEmpty && id.data.all Char.isDigit

/-- `parseInt(id)` on a string matching `/^\d+$/`. -/
def parseIntDigits (id : String) : Nat :=
  (id.toNat?).getD 0

/-- `!data || data.length === 0` (server.js:183): `null` or empty row list. -/
def isEmptyData (d : Option (List Rec)) : Bool :=
  match d with
  | none => true
  | some l => l.isEmpty

/-- Responses of `PUT /api/records/:id`. -/
inductive UpdResp where
  | notFound404
  | serverError500 (msg : String)
  | success (record : Rec)
deriving DecidableEq

/-- Instrumented outcome of `PUT /api/records/:id`: the response, the store
update calls issued in order (key used, payload sent), and whether
`LocalCache.sync(true)` was invoked. -/
structure UpdOutcome where
  resp : UpdResp
  calls : List (RecId × List (String × String))
  syncForced : Bool
deriving DecidableEq

/-- The `PUT /api/records/:id` handler body (server.js:175-198).  `first` is
the result of the initial update keyed by the string `id`; `retryRes` the
result of the `parseInt(id)` retry (consulted only when the retry is issued).

```js
delete updates.id;
let { data, error } = await ...update(updates).eq('id', id).select();
if (!data || data.length === 0) {
    if (/^\d+$/.test(id)) {
        const retry = await ...update(updates).eq('id', parseInt(id)).select();
        data = retry.data; error = retry.error;
    }
}
if (error) throw error;
if (!data || data.length === 0) return res.status(404)...
await LocalCache.sync(true);
res.json({ success: true, record: data[0] });
```

`putAttempts` is the `let/if` prelude: the final `(data, error)` pair after
the optional `parseInt` retry, with the list of store update calls issued. -/
def putAttempts (id : String) (body : List (String × String))
    (first retryRes : UpdRes) :
    Option (List Rec) × Option StoreErr × List (RecId × List (String × String)) :=
  if isEmptyData first.data then
    if isAllDigits id then
      (retryRes.data, retryRes.error,
       [(RecId.str id, stripId body), (RecId.num (parseIntDigits id), stripId body)])
    else (first.data, first.error, [(RecId.str id, stripId body)])
  else (first.data, first.error, [(RecId.str id, stripId body)])

/-- The full `PUT /api/records/:id` handler outcome: `throw error` on a
(final) error, 404 on null/empty (final) data, otherwise forced resync and
success with `data[0]`. -/
def putRecord (id : String) (body : List (String × String))
    (first retryRes : UpdRes) : UpdOutcome :=
  match putAttempts id body first retryRes with
  | (data, error, calls) =>
      match error with
      | some e =>
          { resp := UpdResp.serverError500 e.message
            calls := calls
            syncForced := false }
      | none =>
          match data with
          | none => { resp := UpdResp.notFound404, calls := calls, syncForced := false }
          | some [] => { resp := UpdResp.notFound404, calls := calls, syncForced := false }
          | some (r :: _) => { resp := UpdResp.success r, calls := calls, syncForced := true }

/-- C1: role resolution.  A credential equal to the static super-admin secret
resolves to super-admin (the first branch wins, so this holds even when the
credential also equals the cached sub-admin secret); otherwise a set,
non-empty cached sub-admin secret equal to the credential resolves to
sub-admin; otherwise the request is rejected (401, modelled as `none`); and
with an absent or empty cached sub-admin secret no credential is ever
classified sub-admin. -/
theorem c1_role_resolution (adminPwd : String) (subAdminPwd : Option String)
    (token : Option String) :
    (token = some adminPwd →
      authMiddleware adminPwd subAdminPwd token = some Role.admin)
    ∧ (token ≠ some adminPwd →
        (∃ s, subAdminPwd = some s ∧ s ≠ "" ∧ token = some s) →
        authMiddleware adminPwd subAdminPwd token = some Role.subAdmin)
    ∧ (token ≠ some adminPwd →
        (¬ ∃ s, subAdminPwd = some s ∧ s ≠ "" ∧ token = some s) →
        authMiddleware adminPwd subAdminPwd token = none)
    ∧ ((subAdminPwd = none ∨ subAdminPwd = some "") →
        authMiddleware adminPwd subAdminPwd token ≠ some Role.subAdmin) := by
  refine ⟨fun h => by simp [authMiddleware, h], ?_, ?_, ?_⟩
  · rintro hne ⟨s, hsub, hs, htok⟩
    subst hsub; subst htok
    simp [authMiddleware, truthyOptStr, hne, hs]
  · intro hne hnex
    cases hsub : subAdminPwd with
    | none => simp [authMiddleware, truthyOptStr, hne]
    | some s =>
        by_cases hs : s = ""
        · subst hs; simp [authMiddleware, truthyOptStr, hne]
        · have ht : token ≠ some s := fun h => hnex ⟨s, hsub, hs, h⟩
          simp [authMiddleware, truthyOptStr, hne, hs, ht]
  · rintro (h | h) <;> subst h <;> simp [authMiddleware, truthyOptStr]

/-- C1 witness: concrete instantiation with a non-empty cached sub-admin
secret equal to the credential and distinct from the super-admin secret. -/
theorem c1_role_resolution_witness :
    authMiddleware "888888" (some "sub") (some "sub") = some Role.subAdmin :=
  (c1_role_resolution "888888" (some "sub") (some "sub")).2.1
    (by decide) ⟨"sub", rfl, by decide, rfl⟩

/-- C7: on a super-admin-only route, a credential that resolves to sub-admin
passes `authMiddleware` but is rejected by `requireSuperAdmin` with 403 (not
401), and only the super-admin role ever passes the gate. -/
theorem c7_super_admin_gate (adminPwd : String) (subAdminPwd : Option String)
    (token : Option String) :
    (authMiddleware adminPwd subAdminPwd token = some Role.subAdmin →
      superAdminGate adminPwd subAdminPwd token = GateResult.forbidden403)
    ∧ (∀ r, superAdminGate adminPwd subAdminPwd token = GateResult.pass r →
        r = Role.admin)
    ∧ (superAdminGate adminPwd subAdminPwd token = GateResult.pass Role.admin ↔
        authMiddleware adminPwd subAdminPwd token = some Role.admin) := by
  refine ⟨?_, ?_, ?_⟩ <;>
    · cases h : authMiddleware adminPwd subAdminPwd token with
      | none => simp [superAdminGate, h, requireSuperAdmin]
      | some r => cases r <;> simp [superAdminGate, h, requireSuperAdmin]

/-- C7 witness: a valid sub-admin credential on a super-admin-only route gets
403. -/
theorem c7_super_admin_gate_witness :
    superAdminGate "888888" (some "sub") (some "sub") = GateResult.forbidden403 :=
  (c7_super_admin_gate "888888" (some "sub") (some "sub")).1 (by decide)

/-- C5: lazy sync.  When the cached records collection is non-empty,
`sync(false)` returns immediately: no store reads, no cache field changed;
hence `GET /api/records` served from a populated cache performs zero store
reads and serves exactly the cached records. -/
theorem c5_lazy_sync (reads : SyncReads) (c : Cache) (h : c.records ≠ []) :
    sync false reads c = (c, 0) ∧ getRecords reads c = (c.records, c, 0) := by
  have hl : c.records.length > 0 := List.length_pos.mpr h
  refine ⟨?_, ?_⟩ <;> simp [getRecords, sync, hl]

/-- C5 witness: a cache holding one record is served unchanged with zero
store reads. -/
theorem c5_lazy_sync_witness :
    sync false ⟨none, none, none⟩
        (⟨[[("id", "1")]], [], none, 0⟩ : Cache) =
      ((⟨[[("id", "1")]], [], none, 0⟩ : Cache), 0)
    ∧ getRecords ⟨none, none, none⟩ (⟨[[("id", "1")]], [], none, 0⟩ : Cache) =
      ([[("id", "1")]], (⟨[[("id", "1")]], [], none, 0⟩ : Cache), 0) :=
  c5_lazy_sync ⟨none, none, none⟩ ⟨[[("id", "1")]], [], none, 0⟩ (by simp)

/-- C9 (implicit): the populated-check is solely "records non-empty".  With an
empty cached records list, `sync(false)` does not skip: all three store reads
are issued and the snapshot is rebuilt.  Moreover a records read that failed
(`null` data) or genuinely returned zero rows leaves the cached records
empty, so the next lazy sync performs a full reload again: an empty dataset
is never cached. -/
theorem c9_empty_never_cached (reads reads2 : SyncReads) (c : Cache)
    (h : c.records = []) :
    sync false reads c = (syncApply reads c, 3)
    ∧ ((reads.recordsData = none ∨ reads.recordsData = some []) →
        (syncApply reads c).records = []
        ∧ sync false reads2 (syncApply reads c) =
            (syncApply reads2 (syncApply reads c), 3)) := by
  constructor
  · simp [sync, h]
  · intro hr
    have hrec : (syncApply reads c).records = [] := by
      rcases hr with hr | hr <;> simp [syncApply, hr]
    exact ⟨hrec, by simp [sync, hrec]⟩

/-- C9 witness: an initially empty cache with a failed records read reloads
on every lazy sync. -/
theorem c9_empty_never_cached_witness :
    sync false ⟨none, some [("a", "b")], some "s"⟩ (⟨[], [], none, 0⟩ : Cache) =
      (syncApply ⟨none, some [("a", "b")], some "s"⟩ (⟨[], [], none, 0⟩ : Cache), 3)
    ∧ (syncApply ⟨none, some [("a", "b")], some "s"⟩
          (⟨[], [], none, 0⟩ : Cache)).records = []
    ∧ sync false ⟨some [[("id", "1")]], none, none⟩
          (syncApply ⟨none, some [("a", "b")], some "s"⟩ (⟨[], [], none, 0⟩ : Cache)) =
        (syncApply ⟨some [[("id", "1")]], none, none⟩
          (syncApply ⟨none, some [("a", "b")], some "s"⟩ (⟨[], [], none, 0⟩ : Cache)), 3) := by
  have h := c9_empty_never_cached ⟨none, some [("a", "b")], some "s"⟩
    ⟨some [[("id", "1")]], none, none⟩ ⟨[], [], none, 0⟩ rfl
  exact ⟨h.1, (h.2 (Or.inl rfl)).1, (h.2 (Or.inl rfl)).2⟩

/-- C8: resync atomicity in the event-loop model.  The forced-sync body
awaits all three reads at its single suspension point and then performs the
three snapshot assignments synchronously, so every cache state observable by
a concurrent request is either the fully-old cache or the fully-new snapshot
(never old records paired with new aliases); the state published at
completion is the full `syncApply` snapshot, which is exactly the composite
of the three assignment steps. -/
theorem c8_resync_atomicity (reads : SyncReads) (c : Cache) :
    (∀ s ∈ observableStates reads c, s = c ∨ s = syncApply reads c)
    ∧ (observableStates reads c).getLast? = some (syncApply reads c)
    ∧ stepEffect reads SyncStep.assignSubPwd
        (stepEffect reads SyncStep.assignAliases
          (stepEffect reads SyncStep.assignRecords c)) = syncApply reads c := by
  refine ⟨?_, ?_, rfl⟩
  · intro s hs
    simp [observableStates, syncBody, yieldStates, stepEffect, isYield,
      syncApply] at hs
    rcases hs with hs | hs
    · exact Or.inl hs
    · exact Or.inr (by simp [syncApply, hs])
  · simp [observableStates, syncBody, yieldStates, stepEffect, isYield,
      syncApply]

/-- C8 witness: with a concrete old cache and concrete read results, the
old cache is an observable state and satisfies the old-or-new disjunction. -/
theorem c8_resync_atomicity_witness :
    ((⟨[], [("old", "x")], none, 0⟩ : Cache) ∈
        observableStates ⟨some [[("id", "2")]], some [("new", "y")], some "s"⟩
          (⟨[], [("old", "x")], none, 0⟩ : Cache))
    ∧ ((⟨[], [("old", "x")], none, 0⟩ : Cache) =
          (⟨[], [("old", "x")], none, 0⟩ : Cache)
        ∨ (⟨[], [("old", "x")], none, 0⟩ : Cache) =
          syncApply ⟨some [[("id", "2")]], some [("new", "y")], some "s"⟩
            (⟨[], [("old", "x")], none, 0⟩ : Cache)) := by
  have hmem : (⟨[], [("old", "x")], none, 0⟩ : Cache) ∈
      observableStates ⟨some [[("id", "2")]], some [("new", "y")], some "s"⟩
        (⟨[], [("old", "x")], none, 0⟩ : Cache) := by
    simp [observableStates, syncBody, yieldStates, stepEffect, isYield]
  exact ⟨hmem,
    (c8_resync_atomicity ⟨some [[("id", "2")]], some [("new", "y")], some "s"⟩
      ⟨[], [("old", "x")], none, 0⟩).1 _ hmem⟩

/-- C2: sub-admin write throttling.  When the resolved role is sub-admin and
`now - lastSub < COOLDOWN` (10 minutes), the request is rejected with 429
carrying the remaining time rounded up to whole minutes (the reported value
`m` is the exact ceiling of `(COOLDOWN - elapsed) / 60000`: the two bounds
pin it), the insert is never attempted and no state changes; when the
cooldown has elapsed the insert is attempted; the super-admin role is never
throttled. -/
theorem c2_rate_limit (now now2 lastSub : Int) (ins : InsertResult) :
    (now - lastSub < COOLDOWN →
      postRecords Role.subAdmin now now2 lastSub ins =
        { resp := WriteResp.throttled429 (remainingMin (now - lastSub))
          newLastSubActionTime := lastSub
          insertAttempted := false
          syncForced := false }
      ∧ COOLDOWN - (now - lastSub) ≤ (remainingMin (now - lastSub) : Int) * 60000
      ∧ ((remainingMin (now - lastSub) : Int) - 1) * 60000 <
          COOLDOWN - (now - lastSub))
    ∧ (COOLDOWN ≤ now - lastSub →
        (postRecords Role.subAdmin now now2 lastSub ins).insertAttempted = true)
    ∧ ((postRecords Role.admin now now2 lastSub ins).insertAttempted = true
      ∧ ∀ m, (postRecords Role.admin now now2 lastSub ins).resp ≠
          WriteResp.throttled429 m) := by
  refine ⟨fun h => ⟨by simp [postRecords, h], ?_, ?_⟩, fun h => ?_, ?_, ?_⟩
  · simp [remainingMin, COOLDOWN] at *
    omega
  · simp [remainingMin, COOLDOWN] at *
    omega
  · have hlt : ¬(now - lastSub < COOLDOWN) := by omega
    cases ins with
    | ok => simp [postRecords, hlt]
    | err e =>
        simp [postRecords, hlt]
        split <;> rfl
  · cases ins with
    | ok => simp [postRecords]
    | err e =>
        simp [postRecords]
        split <;> rfl
  · intro m
    cases ins with
    | ok => simp [postRecords]
    | err e =>
        simp [postRecords]
        split <;> simp

/-- C2 witness: a sub-admin write 5 minutes after the last one is throttled
with 5 remaining minutes and no insert attempt; no store write happens. -/
theorem c2_rate_limit_witness :
    postRecords Role.subAdmin 300000 300000 0 InsertResult.ok =
      { resp := WriteResp.throttled429 (remainingMin (300000 - 0))
        newLastSubActionTime := 0
        insertAttempted := false
        syncForced := false }
    ∧ COOLDOWN - (300000 - 0) ≤ (remainingMin (300000 - 0) : Int) * 60000
    ∧ ((remainingMin (300000 - 0) : Int) - 1) * 60000 < COOLDOWN - (300000 - 0) :=
  (c2_rate_limit 300000 300000 0 InsertResult.ok).1 (by decide)

/-- C3: on a write that reaches the store (super-admin, or sub-admin past the
cooldown) and fails, the last-sub-admin-write timestamp is not consumed and
no cache resync happens; a uniqueness violation (code `'23505'`) maps to 409,
any other error to the generic 500, and the two responses are distinct.  Only
a successful insert updates the timestamp (for the sub-admin role, to the
post-insert `Date.now()`) and forces the resync. -/
theorem c3_insert_failure_no_side_effects (role : Role) (now now2 lastSub : Int)
    (e : StoreErr) (hpass : role = Role.admin ∨ COOLDOWN ≤ now - lastSub) :
    ((postRecords role now now2 lastSub (InsertResult.err e)).newLastSubActionTime
        = lastSub
      ∧ (postRecords role now now2 lastSub (InsertResult.err e)).syncForced = false)
    ∧ (e.code = "23505" →
        (postRecords role now now2 lastSub (InsertResult.err e)).resp =
          WriteResp.conflict409)
    ∧ (e.code ≠ "23505" →
        (postRecords role now now2 lastSub (InsertResult.err e)).resp =
          WriteResp.serverError500 e.message)
    ∧ WriteResp.conflict409 ≠ WriteResp.serverError500 e.message
    ∧ ((postRecords role now now2 lastSub InsertResult.ok).newLastSubActionTime =
        if role = Role.subAdmin then now2 else lastSub)
    ∧ (postRecords role now now2 lastSub InsertResult.ok).syncForced = true := by
  have hcond : ¬(role = Role.subAdmin ∧ now - lastSub < COOLDOWN) := by
    rcases hpass with h | h
    · subst h; simp
    · rintro ⟨_, hlt⟩; omega
  refine ⟨⟨?_, ?_⟩, ?_, ?_, by simp, ?_, ?_⟩
  · simp [postRecords, hcond]
    split <;> rfl
  · simp [postRecords, hcond]
    split <;> rfl
  · intro hc
    simp [postRecords, hcond, hc]
  · intro hc
    simp [postRecords, hcond, hc]
  · simp [postRecords, hcond]
  · simp [postRecords, hcond]

/-- C3 witness: a super-admin insert hitting a uniqueness violation gets 409,
with the timestamp and resync state untouched. -/
theorem c3_insert_failure_no_side_effects_witness :
    (postRecords Role.admin 0 0 7 (InsertResult.err ⟨"23505", "dup"⟩)).resp =
      WriteResp.conflict409
    ∧ (postRecords Role.admin 0 0 7
        (InsertResult.err ⟨"23505", "dup"⟩)).newLastSubActionTime = 7
    ∧ (postRecords Role.admin 0 0 7
        (InsertResult.err ⟨"23505", "dup"⟩)).syncForced = false := by
  have h := c3_insert_failure_no_side_effects Role.admin 0 0 7 ⟨"23505", "dup"⟩
    (Or.inl rfl)
  exact ⟨h.2.1 rfl, h.1.1, h.1.2⟩

/-- C6: delete idempotence.  The delete handler's outcome is independent of
how many rows the store delete matched (the handler never inspects a row
count); whenever the store call itself reports no error the response is
success with a forced resync; and no input ever produces 404. -/
theorem c6_delete_idempotent (id : String) (delError : Option StoreErr)
    (n m : Nat) :
    deleteRecord id delError n = deleteRecord id delError m
    ∧ (delError = none →
        deleteRecord id delError n =
          { resp := DelResp.success, syncForced := true })
    ∧ (deleteRecord id delError n).resp ≠ DelResp.notFound404 := by
  refine ⟨rfl, fun h => by simp [deleteRecord, h], ?_⟩
  cases delError <;> simp [deleteRecord]

/-- C6 witness: deleting a nonexistent identifier (zero matched rows, no
store error) returns success. -/
theorem c6_delete_idempotent_witness :
    deleteRecord "999" none 0 = { resp := DelResp.success, syncForced := true } :=
  (c6_delete_idempotent "999" none 0 1).2.1 rfl

/-- The handler's issued calls are exactly those of the attempt prelude,
whatever the final `(data, error)` turn out to be. -/
theorem putRecord_calls (id : String) (body : List (String × String))
    (first retryRes : UpdRes) :
    (putRecord id body first retryRes).calls =
      (putAttempts id body first retryRes).2.2 := by
  unfold putRecord
  rcases h : putAttempts id body first retryRes with ⟨d, err, calls⟩
  cases err with
  | some e => rfl
  | none =>
      cases d with
      | none => rfl
      | some l =>
          cases l with
          | nil => rfl
          | cons r t => rfl

/-- The attempt prelude issues either the single string-keyed call, or that
call followed by the one numeric retry. -/
theorem putAttempts_calls_shape (id : String) (body : List (String × String))
    (first retryRes : UpdRes) :
    (putAttempts id body first retryRes).2.2 = [(RecId.str id, stripId body)]
    ∨ (putAttempts id body first retryRes).2.2 =
        [(RecId.str id, stripId body),
         (RecId.num (parseIntDigits id), stripId body)] := by
  by_cases h1 : isEmptyData first.data <;>
    by_cases h2 : isAllDigits id <;>
      simp [putAttempts, h1, h2]

/-- Every field kept by `stripId` has a key other than `"id"`. -/
theorem stripId_no_id (body : List (String × String)) :
    ∀ kv ∈ stripId body, kv.1 ≠ "id" := by
  intro kv hkv
  have h := List.of_mem_filter hkv
  simpa using h

/-- C4: the update handler.  The `id` field is stripped from the payload of
every store call; the first attempt is keyed by the route parameter as a
string; a clean zero-row first attempt on an all-digits identifier triggers
exactly one numeric retry; a clean zero-row outcome after the retry (or,
without a retry, for a non-numeric identifier) yields 404 with no resync;
and a successful attempt (first or retry) forces the resync and returns the
first row read back from the store. -/
theorem c4_update_handler (id : String) (body : List (String × String))
    (first retryRes : UpdRes) :
    (∀ call ∈ (putRecord id body first retryRes).calls,
        call.2 = stripId body ∧ ∀ kv ∈ call.2, kv.1 ≠ "id")
    ∧ (putRecord id body first retryRes).calls.head? =
        some (RecId.str id, stripId body)
    ∧ (first.error = none → first.data = some [] → isAllDigits id = true →
        (putRecord id body first retryRes).calls =
          [(RecId.str id, stripId body),
           (RecId.num (parseIntDigits id), stripId body)])
    ∧ (first.error = none → first.data = some [] → isAllDigits id = true →
        retryRes.error = none → retryRes.data = some [] →
        (putRecord id body first retryRes).resp = UpdResp.notFound404
        ∧ (putRecord id body first retryRes).syncForced = false)
    ∧ (first.error = none → first.data = some [] → isAllDigits id = false →
        (putRecord id body first retryRes).calls = [(RecId.str id, stripId body)]
        ∧ (putRecord id body first retryRes).resp = UpdResp.notFound404)
    ∧ (∀ r rest, first.error = none → first.data = some (r :: rest) →
        (putRecord id body first retryRes).resp = UpdResp.success r
        ∧ (putRecord id body first retryRes).syncForced = true)
    ∧ (∀ r rest, first.data = some [] → isAllDigits id = true →
        retryRes.error = none → retryRes.data = some (r :: rest) →
        (putRecord id body first retryRes).resp = UpdResp.success r
        ∧ (putRecord id body first retryRes).syncForced = true) := by
  refine ⟨?_, ?_, ?_, ?_, ?_, ?_, ?_⟩
  · intro call hcall
    rw [putRecord_calls] at hcall
    have hpay : call.2 = stripId body := by
      rcases putAttempts_calls_shape id body first retryRes with h | h
      · rw [h] at hcall
        simp at hcall
        simp [hcall]
      · rw [h] at hcall
        simp at hcall
        rcases hcall with hcall | hcall <;> simp [hcall]
    exact ⟨hpay, hpay ▸ stripId_no_id body⟩
  · rw [putRecord_calls]
    rcases putAttempts_calls_shape id body first retryRes with h | h <;>
      simp [h]
  · intro _ hdata hdig
    rw [putRecord_calls]
    simp [putAttempts, hdata, hdig, isEmptyData]
  · intro herr hdata hdig herr2 hdata2
    simp [putRecord, putAttempts, hdata, hdig, herr2, hdata2, isEmptyData]
  · intro herr hdata hdig
    simp [putRecord, putAttempts, herr, hdata, hdig, isEmptyData]
  · intro r rest herr hdata
    simp [putRecord, putAttempts, herr, hdata, isEmptyData]
  · intro r rest hdata hdig herr2 hdata2
    simp [putRecord, putAttempts, hdata, hdig, herr2, hdata2, isEmptyData]

/-- C4 witness: identifier `"42"`, zero rows as a string key, one numeric
retry that matches: the handler returns the updated row read back, forces
the resync, and both calls carried the id-stripped payload. -/
theorem c4_update_handler_witness :
    (putRecord "42" [("id", "42"), ("score", "10")] ⟨some [], none⟩
        ⟨some [[("score", "10")]], none⟩).calls =
      [(RecId.str "42", stripId [("id", "42"), ("score", "10")]),
       (RecId.num (parseIntDigits "42"), stripId [("id", "42"), ("score", "10")])]
    ∧ (putRecord "42" [("id", "42"), ("score", "10")] ⟨some [], none⟩
        ⟨some [[("score", "10")]], none⟩).resp = UpdResp.success [("score", "10")]
    ∧ (putRecord "42" [("id", "42"), ("score", "10")] ⟨some [], none⟩
        ⟨some [[("score", "10")]], none⟩).syncForced = true := by
  have h := c4_update_handler "42" [("id", "42"), ("score", "10")]
    ⟨some [], none⟩ ⟨some [[("score", "10")]], none⟩
  refine ⟨h.2.2.1 rfl rfl (by decide), ?_, ?_⟩
  · exact (h.2.2.2.2.2.2 [("score", "10")] [] rfl (by decide) rfl rfl).1
  · exact (h.2.2.2.2.2.2 [("score", "10")] [] rfl (by decide) rfl rfl).2

/-- C10 (implicit): the numeric retry fires whenever the first attempt's data
is null or empty — including when the first attempt errored (Supabase returns
`data: null` with the error) — and the retry's `data`/`error` overwrite the
first attempt's.  For an all-digits identifier, a first-attempt store error is
therefore masked by a successful retry (the handler responds success), or
replaced by the retry's own error in the 500 response; the first error never
surfaces. -/
theorem c10_retry_replaces_first_error (id : String)
    (body : List (String × String)) (e : StoreErr) (retryRes : UpdRes)
    (hdig : isAllDigits id = true) :
    (putRecord id body ⟨none, some e⟩ retryRes).calls =
      [(RecId.str id, stripId body), (RecId.num (parseIntDigits id), stripId body)]
    ∧ (∀ r rest, retryRes.error = none → retryRes.data = some (r :: rest) →
        (putRecord id body ⟨none, some e⟩ retryRes).resp = UpdResp.success r
        ∧ (putRecord id body ⟨none, some e⟩ retryRes).syncForced = true)
    ∧ (∀ e2, retryRes.error = some e2 →
        (putRecord id body ⟨none, some e⟩ retryRes).resp =
          UpdResp.serverError500 e2.message) := by
  refine ⟨?_, ?_, ?_⟩
  · rw [putRecord_calls]
    simp [putAttempts, hdig, isEmptyData]
  · intro r rest herr hdata
    simp [putRecord, putAttempts, hdig, herr, hdata, isEmptyData]
  · intro e2 herr
    simp [putRecord, putAttempts, hdig, herr, isEmptyData]

/-- C10 witness: identifier `"42"`, first attempt errored, retry matches one
row: the handler responds success and the first error is gone. -/
theorem c10_retry_replaces_first_error_witness :
    (putRecord "42" [("score", "10")] ⟨none, some ⟨"XX", "boom"⟩⟩
        ⟨some [[("score", "10")]], none⟩).resp = UpdResp.success [("score", "10")]
    ∧ (putRecord "42" [("score", "10")] ⟨none, some ⟨"XX", "boom"⟩⟩
        ⟨some [[("score", "10")]], none⟩).syncForced = true :=
  (c10_retry_replaces_first_error "42" [("score", "10")] ⟨"XX", "boom"⟩
    ⟨some [[("score", "10")]], none⟩ (by decide)).2.1 [("score", "10")] [] rfl rfl

end MahjongServer
